import Mathlib

/-!
Verification of the `codeblocktimer` module (`src/codeblocktimer.py`).

The Python module is embedded shallowly.  Mutable objects live in an arena
(`List Inst`), instance references are arena indices, and every operation is a
pure function returning `Except PyError`.

A central point of the embedding is Python's attribute semantics.  In the
source, the class bodies carry bare annotations such as

    instances: list[_CodeBlockTimerInstance]
    active_instance: _CodeBlockTimerInstance

which (PEP 526) do NOT create the attribute: reading `self.active_instance`
before it has been assigned raises `AttributeError`.  The source's `__init__`
methods assign only some of the annotated attributes, so the unassigned ones
are modelled by an explicit "unset" state whose read yields
`PyError.attributeError`.

On exceptions and state: every `raise` in this module happens before the
raising operation has mutated any object reachable by the caller (the only
object ever created before a raise is the half-built instance inside
`_CodeBlockTimerInstance.__init__`, which is discarded unreferenced), so the
`Except`-style embedding — where an error outcome leaves the caller's values
untouched — is faithful up to garbage objects.

Wall-clock time (`round(time.time() * 1000.0)`, a millisecond timestamp) is
passed in as an explicit `now : Int` parameter.
-/

/-- Exceptions that the embedded code can raise.  `invalidRef` is an artifact
of the arena encoding (a dangling index); it cannot arise from states the
Python code manipulates, where references are always valid. -/
inductive PyError where
  | attributeError (attr : String)
  | valueError (msg : String)
  | typeError (msg : String)
  | recursionError
deriving DecidableEq, Repr

/-- A Python attribute that, when assigned, holds either `None` or an
instance reference.  `unset` = the attribute was never assigned (reading it
raises `AttributeError`); `pynone` = it holds Python `None`; `ref i` = it
references arena slot `i`. -/
inductive PyRef where
  | unset
  | pynone
  | ref (i : Nat)
deriving DecidableEq, Repr

/-- A Python attribute that, when assigned, holds either `None` or a list of
instance references.  `unset` = never assigned (reads raise
`AttributeError`). -/
inductive PyListAttr where
  | unset
  | pynone
  | val (l : List Nat)
deriving DecidableEq, Repr

/-- `_CodeBlockTimerInstance`.  `__init__` assigns `name`, `parent_instance`
and `start_time`; it never assigns `stop_time` (assigned only by `stop`) nor
`child_instances` (in fact no code path ever assigns it, see
`addChildInstance`), so those two start out unset: `stop_time = none` and
`child_instances = .unset` mean the attribute is missing. -/
structure Inst where
  name : String
  start_time : Int
  stop_time : Option Int
  parent_instance : Option Nat
  child_instances : PyListAttr
deriving DecidableEq, Repr

/-- `CodeBlockTimer`.  `__init__` assigns only `instances`; `active_instance`
starts out unset (`PyRef.unset`), so reading it on a fresh timer raises
`AttributeError`. -/
structure Timer where
  instances : List Nat
  active_instance : PyRef
deriving DecidableEq, Repr

/-- `CodeBlockTimer.__init__`: `self.instances = list()` and nothing else. -/
def Timer.init : Timer :=
  { instances := [], active_instance := PyRef.unset }

/-- Evaluate `self.active_instance`: `AttributeError` when unset, otherwise
the held value (`none` = Python `None`). -/
def readActive (t : Timer) : Except PyError (Option Nat) :=
  match t.active_instance with
  | PyRef.unset => .error (.attributeError "active_instance")
  | PyRef.pynone => .ok none
  | PyRef.ref i => .ok (some i)

/-- Convert the value stored back into `active_instance` by
`CodeBlockTimer.stop` (the stopped instance's parent, possibly `None`). -/
def PyRef.ofOption : Option Nat → PyRef
  | none => PyRef.pynone
  | some i => PyRef.ref i

/-- `_CodeBlockTimerInstance.__init__(name, parent_instance)`: records `name`
and `parent_instance`; if the parent is not `None`, appends the new instance
to `parent_instance.child_instances` — which raises `AttributeError` whenever
that attribute is unset (it always is in states the code itself builds) and
`AttributeError` on `append` if it held `None` — then records `start_time`.
Returns the extended arena and the new instance's index. -/
def instInit (arena : List Inst) (name : String) (parent : Option Nat)
    (now : Int) : Except PyError (List Inst × Nat) :=
  let newId := arena.length
  let inst : Inst :=
    { name := name, start_time := now, stop_time := none,
      parent_instance := parent, child_instances := PyListAttr.unset }
  let arena2 := arena ++ [inst]
  match parent with
  | none => .ok (arena2, newId)
  | some p =>
    match arena2[p]? with
    | none => .error (.attributeError "invalid reference")
    | some pInst =>
      match pInst.child_instances with
      | PyListAttr.unset => .error (.attributeError "child_instances")
      | PyListAttr.pynone => .error (.typeError "NoneType has no append")
      | PyListAttr.val cs =>
        .ok (arena2.set p
              { pInst with child_instances := PyListAttr.val (cs ++ [newId]) },
            newId)

/-- `CodeBlockTimerCloseable`: stores the timer (passed explicitly to the
functions below, since the embedding is value-based) and the instance name. -/
structure CodeBlockTimerCloseable where
  instance_name : String
deriving DecidableEq, Repr

/-- `CodeBlockTimer.start(name)`: builds
`_CodeBlockTimerInstance(name, self.active_instance)` (evaluating
`self.active_instance` raises `AttributeError` on a fresh timer), appends it
to `self.instances` when no instance was active, makes it the active
instance, and returns a `CodeBlockTimerCloseable` bound to `name`. -/
def Timer.start (t : Timer) (arena : List Inst) (name : String) (now : Int) :
    Except PyError (Timer × List Inst × CodeBlockTimerCloseable) :=
  match readActive t with
  | .error e => .error e
  | .ok act =>
    match instInit arena name act now with
    | .error e => .error e
    | .ok (arena2, newId) =>
      let t2 :=
        match act with
        | none => { t with instances := t.instances ++ [newId] }
        | some _ => t
      .ok ({ t2 with active_instance := PyRef.ref newId }, arena2,
           { instance_name := name })

/-- `_CodeBlockTimerInstance.stop()`: records `stop_time` and returns
`parent_instance` (handled inline by `Timer.stop`).
`CodeBlockTimer.stop(name)`: returns silently when `active_instance` is
`None`; raises `ValueError` when the active instance's name differs from
`name`; otherwise stops the active instance and replaces `active_instance`
with its parent.  Reading `active_instance` on a fresh timer raises
`AttributeError`. -/
def Timer.stop (t : Timer) (arena : List Inst) (name : String) (now : Int) :
    Except PyError (Timer × List Inst) :=
  match readActive t with
  | .error e => .error e
  | .ok none => .ok (t, arena)
  | .ok (some i) =>
    match arena[i]? with
    | none => .error (.attributeError "invalid reference")
    | some inst =>
      if inst.name ≠ name then
        .error (.valueError "Cannot stop a timer that is not the active one.")
      else
        .ok ({ t with active_instance := PyRef.ofOption inst.parent_instance },
             arena.set i { inst with stop_time := some now })

/-- `_CodeBlockTimerInstance.add_child_instance(child)`: the guard
`if self.child_instances is None` itself reads the attribute, so it raises
`AttributeError` when `child_instances` is unset; when the attribute holds
`None` it is replaced by a fresh list; then `child` is appended.  Note the
source never assigns `child.parent_instance`. -/
def addChildInstance (arena : List Inst) (self child : Nat) :
    Except PyError (List Inst) :=
  match arena[self]? with
  | none => .error (.attributeError "invalid reference")
  | some inst =>
    match inst.child_instances with
    | PyListAttr.unset => .error (.attributeError "child_instances")
    | PyListAttr.pynone =>
      .ok (arena.set self { inst with child_instances := PyListAttr.val [child] })
    | PyListAttr.val cs =>
      .ok (arena.set self { inst with child_instances := PyListAttr.val (cs ++ [child]) })

/-- Loop of `CodeBlockTimer.add_sub_timer` in the active-instance branch:
`for sub_timer_instance in sub.instances: active.add_child_instance(...)`. -/
def addChildrenLoop (arena : List Inst) (self : Nat) :
    List Nat → Except PyError (List Inst)
  | [] => .ok arena
  | c :: rest =>
    match addChildInstance arena self c with
    | .error e => .error e
    | .ok arena2 => addChildrenLoop arena2 self rest

/-- `CodeBlockTimer.add_sub_timer(sub)`: when `active_instance` is `None`,
extends `self.instances` with `sub.instances`; otherwise adds each of
`sub.instances` as a child of the active instance.  Reading
`active_instance` on a fresh timer raises `AttributeError`. -/
def Timer.add_sub_timer (t : Timer) (arena : List Inst) (sub : Timer) :
    Except PyError (Timer × List Inst) :=
  match readActive t with
  | .error e => .error e
  | .ok none => .ok ({ t with instances := t.instances ++ sub.instances }, arena)
  | .ok (some a) =>
    match addChildrenLoop arena a sub.instances with
    | .error e => .error e
    | .ok arena2 => .ok (t, arena2)

/-- `_CodeBlockTimerInstance.get_duration()`: `self.stop_time -
self.start_time`; reading `stop_time` on an instance that was never stopped
raises `AttributeError`. -/
def get_duration (inst : Inst) : Except PyError Int :=
  match inst.stop_time with
  | none => .error (.attributeError "stop_time")
  | some st => .ok (st - inst.start_time)

/-- `_CodeBlockTimerInstance.__INDENT_SIZE`. -/
def INDENT_SIZE : Nat := 2

/-- `_CodeBlockTimerInstance.to_string(indent)`: the indent prefix
(`indent * __INDENT_SIZE` spaces when `indent > 0`), then
`f"{self.name}: {self.get_duration()}\n"` (raising `AttributeError` for an
unstopped instance), then — unless `child_instances` holds `None` — the
children rendered at `indent + 1`; reading an unset `child_instances` raises
`AttributeError`.  `fuel` bounds the recursion depth, standing in for
Python's recursion limit (`recursionError` on exhaustion). -/
def instToString (arena : List Inst) : Nat → Nat → Nat → Except PyError String
  | 0, _, _ => .error .recursionError
  | fuel + 1, indent, i =>
    match arena[i]? with
    | none => .error (.attributeError "invalid reference")
    | some inst =>
      let s0 : String :=
        if indent > 0 then String.mk (List.replicate (indent * INDENT_SIZE) ' ')
        else ""
      match get_duration inst with
      | .error e => .error e
      | .ok dur =>
        let s1 := s0 ++ inst.name ++ ": " ++ toString dur ++ "\n"
        match inst.child_instances with
        | PyListAttr.unset => .error (.attributeError "child_instances")
        | PyListAttr.pynone => .ok s1
        | PyListAttr.val cs =>
          cs.foldlM (fun acc c =>
            match instToString arena fuel (indent + 1) c with
            | .error e => .error e
            | .ok s => .ok (acc ++ s)) s1

/-- Loop of `CodeBlockTimer.to_string`:
`for inst in self.instances: self_string += inst.to_string(0)`. -/
def rootsToString (arena : List Inst) (fuel : Nat) :
    List Nat → String → Except PyError String
  | [], acc => .ok acc
  | i :: rest, acc =>
    match instToString arena fuel 0 i with
    | .error e => .error e
    | .ok s => rootsToString arena fuel rest (acc ++ s)

/-- `CodeBlockTimer.to_string()`. -/
def Timer.to_string (t : Timer) (arena : List Inst) (fuel : Nat) :
    Except PyError String :=
  rootsToString arena fuel t.instances ""

/-- The object built by `threading.local()`.  The module-level `get` calls
`threading.local()` itself, so each call gets a brand-new local object with
no attributes; `code_block_timer = none` models the attribute being unset. -/
structure ThreadLocalData where
  code_block_timer : Option Nat
deriving DecidableEq, Repr

/-- The value of the expression `threading.local()`: a fresh object carrying
no attributes. -/
def threadingLocal : ThreadLocalData :=
  { code_block_timer := none }

/-- `hasattr(thread_local_data, "code_block_timer")`. -/
def hasattrCodeBlockTimer (d : ThreadLocalData) : Bool :=
  d.code_block_timer.isSome

/-- Module-level `get()`.  Timer objects are allocated in a store
(`List Timer`) so that object identity is observable: the result is the
store after the call together with the index of the returned timer.
The source constructs `thread_local_data = threading.local()` inside the
function body, so the `hasattr` test inspects a brand-new object every call
and the cached branch can never be taken. -/
def get (timers : List Timer) : Except PyError (List Timer × Nat) :=
  let thread_local_data := threadingLocal
  let (timers2, tld2) :=
    if !hasattrCodeBlockTimer thread_local_data then
      (timers ++ [Timer.init],
       { thread_local_data with code_block_timer := some timers.length })
    else (timers, thread_local_data)
  match tld2.code_block_timer with
  | none => .error (.attributeError "code_block_timer")
  | some i => .ok (timers2, i)

/-- `CodeBlockTimerCloseable.__exit__`: calls
`self.code_block_timer.stop(self.instance_name)` (the bound timer is passed
explicitly).  This is the only method the class defines besides
`__init__`. -/
def closeableExit (c : CodeBlockTimerCloseable) (t : Timer) (arena : List Inst)
    (now : Int) : Except PyError (Timer × List Inst) :=
  t.stop arena c.instance_name now

/-- Whether the class `CodeBlockTimerCloseable` defines `__enter__`: it does
not (only `__init__` and `__exit__` appear in its body). -/
def closeableHasEnter : Bool := false

/-- The `with` statement (PEP 343) applied to a `CodeBlockTimerCloseable`:
the interpreter first looks up `__enter__` on the type; since the class does
not define it, the statement raises (`TypeError` in current CPython,
`AttributeError` in older versions — either way an exception before the body
runs and before `__exit__` could ever be called).  The dead branch spells
out the protocol: run the body, then `__exit__`; since `__exit__` returns
`None`, a body exception is never suppressed.  The body returns its outcome
together with the (possibly mutated) state, since a Python exception does
not roll mutations back. -/
def withCloseable (c : CodeBlockTimerCloseable) (t : Timer) (arena : List Inst)
    (now : Int)
    (body : Timer → List Inst → Except PyError Unit × Timer × List Inst) :
    Except PyError Unit × Timer × List Inst :=
  if closeableHasEnter then
    let (r, t1, a1) := body t arena
    match closeableExit c t1 a1 now with
    | .error e => (.error e, t1, a1)
    | .ok (t2, a2) => (r, t2, a2)
  else
    (.error (.typeError "object does not support the context manager protocol"),
     t, arena)

/-- The subtree of span `i`, followed through the actual `child_instances`
links of the arena, contains a span that was never stopped (its `stop_time`
attribute was never assigned). -/
inductive ContainsUnstopped (arena : List Inst) : Nat → Prop where
  | here (i : Nat) (inst : Inst) (hget : arena[i]? = some inst)
      (hstop : inst.stop_time = none) : ContainsUnstopped arena i
  | viaChild (i : Nat) (inst : Inst) (cs : List Nat) (c : Nat)
      (hget : arena[i]? = some inst)
      (hcs : inst.child_instances = PyListAttr.val cs)
      (hmem : c ∈ cs) (hsub : ContainsUnstopped arena c) :
      ContainsUnstopped arena i

/-- Concrete state for the C10 witness: two roots, the first rendering fine
(a directly constructed state whose `child_instances` holds `None`), the
second stopped but containing the never-stopped child span "u". -/
def c10Arena : List Inst :=
  [{ name := "ok1", start_time := 0, stop_time := some 3, parent_instance := none,
     child_instances := PyListAttr.pynone },
   { name := "p", start_time := 0, stop_time := some 9, parent_instance := none,
     child_instances := PyListAttr.val [2] },
   { name := "u", start_time := 1, stop_time := none, parent_instance := some 1,
     child_instances := PyListAttr.unset }]

/-- Timer owning the roots of `c10Arena`. -/
def c10T : Timer := { instances := [0, 1], active_instance := PyRef.unset }

/-! ## Claims -/

/-- Claim C1: the spec says `add_sub_timer(other)` on a timer with an active
span appends each of the other timer's roots as a child of the active span
and makes that span their parent, leaving the active span unchanged.  On the
code this fails: the active span's `child_instances` attribute is never
assigned anywhere, so `add_child_instance` raises `AttributeError` at its
`is None` guard (first conjunct); and even on a state where the child list
exists, `add_child_instance` appends the root but never assigns its
`parent_instance`, so the active span does not become the roots' parent
(second conjunct: the post-state shows `X` still with
`parent_instance = none`, the receiver — and hence its active span —
unchanged). -/
theorem c1_merge_under_active_span :
    Timer.add_sub_timer { instances := [0], active_instance := PyRef.ref 0 }
      [{ name := "P", start_time := 0, stop_time := none, parent_instance := none,
         child_instances := PyListAttr.unset },
       { name := "X", start_time := 1, stop_time := some 4, parent_instance := none,
         child_instances := PyListAttr.unset }]
      { instances := [1], active_instance := PyRef.pynone } =
      .error (.attributeError "child_instances")
  ∧ Timer.add_sub_timer { instances := [0], active_instance := PyRef.ref 0 }
      [{ name := "P", start_time := 0, stop_time := none, parent_instance := none,
         child_instances := PyListAttr.val [] },
       { name := "X", start_time := 1, stop_time := some 4, parent_instance := none,
         child_instances := PyListAttr.unset }]
      { instances := [1], active_instance := PyRef.pynone } =
      .ok ({ instances := [0], active_instance := PyRef.ref 0 },
           [{ name := "P", start_time := 0, stop_time := none, parent_instance := none,
              child_instances := PyListAttr.val [1] },
            { name := "X", start_time := 1, stop_time := some 4, parent_instance := none,
              child_instances := PyListAttr.unset }]) :=
  ⟨rfl, rfl⟩

/-- Claim C2: the spec says `add_sub_timer(other)` on a timer with no active
span appends the other timer's roots, in order, to the receiver's roots,
parents staying unset.  On a freshly constructed receiver — which has no
active span — the call instead raises `AttributeError`, because `__init__`
never assigns `active_instance` (first conjunct).  On a receiver whose
`active_instance` attribute holds `None` (the state `__init__` was evidently
meant to establish), the claimed behaviour does hold: roots become
`[2, 0, 1]` = old roots then the other timer's roots, and the arena — hence
every `parent_instance` — is untouched (second conjunct). -/
theorem c2_merge_without_active_span :
    Timer.add_sub_timer Timer.init
      [{ name := "X", start_time := 0, stop_time := some 2, parent_instance := none,
         child_instances := PyListAttr.unset },
       { name := "Y", start_time := 2, stop_time := some 5, parent_instance := none,
         child_instances := PyListAttr.unset }]
      { instances := [0, 1], active_instance := PyRef.pynone } =
      .error (.attributeError "active_instance")
  ∧ Timer.add_sub_timer { instances := [2], active_instance := PyRef.pynone }
      [{ name := "X", start_time := 0, stop_time := some 2, parent_instance := none,
         child_instances := PyListAttr.unset },
       { name := "Y", start_time := 2, stop_time := some 5, parent_instance := none,
         child_instances := PyListAttr.unset },
       { name := "R", start_time := 0, stop_time := some 9, parent_instance := none,
         child_instances := PyListAttr.unset }]
      { instances := [0, 1], active_instance := PyRef.pynone } =
      .ok ({ instances := [2, 0, 1], active_instance := PyRef.pynone },
           [{ name := "X", start_time := 0, stop_time := some 2, parent_instance := none,
              child_instances := PyListAttr.unset },
            { name := "Y", start_time := 2, stop_time := some 5, parent_instance := none,
              child_instances := PyListAttr.unset },
            { name := "R", start_time := 0, stop_time := some 9, parent_instance := none,
              child_instances := PyListAttr.unset }]) :=
  ⟨rfl, rfl⟩

/-- Claim C3: the spec says `start(name)` always succeeds, appending the new
span to the roots (no active span) or to the active span's children (active
span), and making it active.  On the code `start` fails in both situations:
on a fresh timer evaluating `self.active_instance` raises `AttributeError`
(first conjunct), and under an active span the constructor raises
`AttributeError` appending to the parent's never-assigned `child_instances`
(second conjunct).  Only from a state where `active_instance` holds `None`
does `start` behave as described for the root case (third conjunct). -/
theorem c3_start_behaviour :
    Timer.start Timer.init [] "a" 0 = .error (.attributeError "active_instance")
  ∧ Timer.start { instances := [0], active_instance := PyRef.ref 0 }
      [{ name := "p", start_time := 0, stop_time := none, parent_instance := none,
         child_instances := PyListAttr.unset }] "b" 1 =
      .error (.attributeError "child_instances")
  ∧ Timer.start { instances := [], active_instance := PyRef.pynone } [] "a" 0 =
      .ok ({ instances := [0], active_instance := PyRef.ref 0 },
           [{ name := "a", start_time := 0, stop_time := none, parent_instance := none,
              child_instances := PyListAttr.unset }],
           { instance_name := "a" }) :=
  ⟨rfl, rfl, rfl⟩

/-- Claim C4: the spec's balanced sequence start A, start B, stop B, stop A
on a timer never reaches its first stop: on a fresh timer the very first
`start` raises `AttributeError` (`active_instance` unassigned, first
conjunct), and even from a repaired initial state (`active_instance` holding
`None`) the nested `start "B"` raises `AttributeError` appending to A's
never-assigned `child_instances` (second and third conjuncts), so no tree
`A { B }` is ever produced. -/
theorem c4_balanced_nesting_sequence :
    Timer.start Timer.init [] "A" 0 = .error (.attributeError "active_instance")
  ∧ Timer.start { instances := [], active_instance := PyRef.pynone } [] "A" 0 =
      .ok ({ instances := [0], active_instance := PyRef.ref 0 },
           [{ name := "A", start_time := 0, stop_time := none, parent_instance := none,
              child_instances := PyListAttr.unset }],
           { instance_name := "A" })
  ∧ Timer.start { instances := [0], active_instance := PyRef.ref 0 }
      [{ name := "A", start_time := 0, stop_time := none, parent_instance := none,
         child_instances := PyListAttr.unset }] "B" 1 =
      .error (.attributeError "child_instances") :=
  ⟨rfl, rfl, rfl⟩

/-- Claim C5: whenever a timer has an active span whose name differs from the
argument, `stop(name)` raises `ValueError("Cannot stop a timer that is not
the active one.")` — the error the spec calls `InvalidStateError`.  In this
embedding an error outcome returns no new state, matching the source: the
`raise` precedes every assignment in `stop`, so the active span and its
missing `stop_time` are untouched. -/
theorem c5_mismatched_stop_raises (t : Timer) (arena : List Inst) (i : Nat)
    (inst : Inst) (name : String) (now : Int)
    (hact : t.active_instance = PyRef.ref i)
    (hget : arena[i]? = some inst)
    (hname : inst.name ≠ name) :
    Timer.stop t arena name now =
      .error (.valueError "Cannot stop a timer that is not the active one.") := by
  unfold Timer.stop readActive
  rw [hact]
  simp [hget, hname]

/-- Claim C5 witness: a timer whose active span is named "x", stopped with
"y". -/
theorem c5_mismatched_stop_raises_witness :
    (({ instances := [0], active_instance := PyRef.ref 0 } : Timer).active_instance
      = PyRef.ref 0)
  ∧ (([{ name := "x", start_time := 0, stop_time := none, parent_instance := none,
         child_instances := PyListAttr.unset }] : List Inst)[0]? =
      some { name := "x", start_time := 0, stop_time := none, parent_instance := none,
             child_instances := PyListAttr.unset })
  ∧ ("x" ≠ "y")
  ∧ Timer.stop { instances := [0], active_instance := PyRef.ref 0 }
      [{ name := "x", start_time := 0, stop_time := none, parent_instance := none,
         child_instances := PyListAttr.unset }] "y" 7 =
      .error (.valueError "Cannot stop a timer that is not the active one.") :=
  ⟨rfl, rfl, by decide,
   c5_mismatched_stop_raises _ _ 0 _ "y" 7 rfl rfl (by decide)⟩

/-- Claim C6: the spec says `stop` on a timer with no active span — in
particular a fresh timer — is a silent no-op.  On a freshly constructed
timer the guard `if self.active_instance is None` itself raises
`AttributeError`, because `__init__` never assigns `active_instance` (first
conjunct).  Only when the attribute holds `None` is the call the claimed
no-op returning the state unchanged (second conjunct). -/
theorem c6_stop_on_fresh_timer :
    Timer.stop Timer.init [] "anything" 0 =
      .error (.attributeError "active_instance")
  ∧ Timer.stop { instances := [], active_instance := PyRef.pynone } [] "anything" 0 =
      .ok ({ instances := [], active_instance := PyRef.pynone }, []) :=
  ⟨rfl, rfl⟩

/-- Claim C7: the spec says the handle returned by `start` invokes
`stop(name)` exactly once when the scope it guards exits, even on error
unwinding.  `CodeBlockTimerCloseable` defines `__exit__` but no `__enter__`,
so using the handle in a `with` statement raises before the body ever runs
and `__exit__` — hence `stop` — is never invoked: the second conjunct shows
the `with` failing on the very handle produced by `start "z"` (first
conjunct), returning the state with span "z" still lacking a `stop_time`.
The third conjunct records that `__exit__` itself, were it ever reached,
is exactly one `stop(instance_name)` call. -/
theorem c7_scoped_handle_with_statement :
    Timer.start { instances := [], active_instance := PyRef.pynone } [] "z" 0 =
      .ok ({ instances := [0], active_instance := PyRef.ref 0 },
           [{ name := "z", start_time := 0, stop_time := none, parent_instance := none,
              child_instances := PyListAttr.unset }],
           { instance_name := "z" })
  ∧ withCloseable { instance_name := "z" }
      { instances := [0], active_instance := PyRef.ref 0 }
      [{ name := "z", start_time := 0, stop_time := none, parent_instance := none,
         child_instances := PyListAttr.unset }] 5
      (fun t a => (.ok (), t, a)) =
      (.error (.typeError "object does not support the context manager protocol"),
       { instances := [0], active_instance := PyRef.ref 0 },
       [{ name := "z", start_time := 0, stop_time := none, parent_instance := none,
          child_instances := PyListAttr.unset }])
  ∧ ∀ (c : CodeBlockTimerCloseable) (t : Timer) (arena : List Inst) (now : Int),
      closeableExit c t arena now = t.stop arena c.instance_name now :=
  ⟨rfl, rfl, fun _ _ _ _ => rfl⟩

/-- Claim C8: the spec says `get()` caches one timer per thread and returns
the cached one on every later call.  The code constructs the
`threading.local()` object inside `get` itself, so the `hasattr` test
always sees a brand-new attribute-less object and every single call — on
any thread — allocates and returns a fresh `CodeBlockTimer` (first
conjunct); in particular two consecutive calls on the same thread return
the distinct timers `0` and `1` (remaining conjuncts). -/
theorem c8_get_always_allocates :
    (∀ timers : List Timer, get timers = .ok (timers ++ [Timer.init], timers.length))
  ∧ get [] = .ok ([Timer.init], 0)
  ∧ get [Timer.init] = .ok ([Timer.init, Timer.init], 1) :=
  ⟨fun _ => rfl, rfl, rfl⟩

/-- Claim C9: the spec says a timer whose spans are all stopped renders as
one `<indent><name>: <duration>` line per span.  On the states the code
itself builds — where `child_instances` is never assigned — `to_string`
raises `AttributeError` at the `is None` guard even for a single stopped
root (first conjunct) instead of returning `"r: 5\n"`.  The formatting
logic itself matches the claim: on a state whose `child_instances`
attributes are all present, the root "r" (duration 5) with child "c"
(duration 2) renders exactly as `"r: 5\n  c: 2\n"` (second conjunct). -/
theorem c9_render_format :
    Timer.to_string { instances := [0], active_instance := PyRef.pynone }
      [{ name := "r", start_time := 0, stop_time := some 5, parent_instance := none,
         child_instances := PyListAttr.unset }] 2 =
      .error (.attributeError "child_instances")
  ∧ Timer.to_string { instances := [0], active_instance := PyRef.pynone }
      [{ name := "r", start_time := 0, stop_time := some 5, parent_instance := none,
         child_instances := PyListAttr.val [1] },
       { name := "c", start_time := 1, stop_time := some 3, parent_instance := some 0,
         child_instances := PyListAttr.val [] }] 2 =
      .ok "r: 5\n  c: 2\n" :=
  ⟨rfl, rfl⟩


/-- Helper for C10: `get_duration` can only fail by reading the missing
`stop_time` attribute. -/
theorem get_duration_error_kind (inst : Inst) (e : PyError)
    (h : get_duration inst = .error e) : e = PyError.attributeError "stop_time" := by
  unfold get_duration at h
  cases hstop : inst.stop_time with
  | none => rw [hstop] at h; exact (Except.error.inj h).symm
  | some st => rw [hstop] at h; exact absurd h (by simp)

/-- Helper for C10: the child-rendering fold never succeeds when the
rendering of some member of the list never succeeds. -/
theorem foldlM_ne_ok_of_mem (f : String → Nat → Except PyError String)
    (c : Nat) (hc : ∀ (acc s : String), f acc c ≠ .ok s) :
    ∀ (cs : List Nat) (acc : String), c ∈ cs →
      ∀ s : String, cs.foldlM f acc ≠ .ok s := by
  intro cs
  induction cs with
  | nil => intro acc hmem; exact absurd hmem (List.not_mem_nil c)
  | cons c0 rest ih =>
    intro acc hmem s h
    rw [List.foldlM_cons] at h
    cases h0 : f acc c0 with
    | error e => rw [h0] at h; exact Except.noConfusion h
    | ok acc2 =>
      rw [h0] at h
      rcases List.mem_cons.mp hmem with hEq | hmem2
      · exact hc acc acc2 (by rw [hEq]; exact h0)
      · exact ih acc2 hmem2 s h

/-- Helper for C10: the child-rendering fold only fails with an error that
one of its steps produced. -/
theorem foldlM_error_kind (f : String → Nat → Except PyError String)
    (P : PyError → Prop) (hf : ∀ acc c e, f acc c = .error e → P e) :
    ∀ (cs : List Nat) (acc : String) (e : PyError),
      cs.foldlM f acc = .error e → P e := by
  intro cs
  induction cs with
  | nil =>
    intro acc e h
    rw [List.foldlM_nil] at h
    exact Except.noConfusion h
  | cons c0 rest ih =>
    intro acc e h
    rw [List.foldlM_cons] at h
    cases h0 : f acc c0 with
    | error e0 =>
      rw [h0] at h
      have : e0 = e := Except.error.inj h
      exact this ▸ hf acc c0 e0 h0
    | ok acc2 =>
      rw [h0] at h
      exact ih acc2 e h

/-- Helper for C10: every failure of the span renderer is either an
`AttributeError` or the recursion-limit error; a `ValueError` or other
exception is impossible. -/
theorem instToString_error_kind (arena : List Inst) :
    ∀ (fuel indent i : Nat) (e : PyError),
      instToString arena fuel indent i = .error e →
      (∃ a, e = PyError.attributeError a) ∨ e = PyError.recursionError := by
  intro fuel
  induction fuel with
  | zero =>
    intro indent i e h
    unfold instToString at h
    exact Or.inr (Except.error.inj h).symm
  | succ fuel ih =>
    intro indent i e h
    unfold instToString at h
    cases hget : arena[i]? with
    | none =>
      rw [hget] at h
      exact Or.inl ⟨"invalid reference", (Except.error.inj h).symm⟩
    | some inst =>
      rw [hget] at h
      simp only at h
      cases hd : get_duration inst with
      | error e0 =>
        rw [hd] at h
        have : e0 = e := Except.error.inj h
        exact Or.inl ⟨"stop_time", by rw [← this, get_duration_error_kind inst e0 hd]⟩
      | ok dur =>
        rw [hd] at h
        simp only at h
        cases hcs : inst.child_instances with
        | unset =>
          rw [hcs] at h
          exact Or.inl ⟨"child_instances", (Except.error.inj h).symm⟩
        | pynone => rw [hcs] at h; exact absurd h (by simp)
        | val cs =>
          rw [hcs] at h
          refine foldlM_error_kind _
            (fun e2 => (∃ a, e2 = PyError.attributeError a) ∨
              e2 = PyError.recursionError) ?_ cs _ e h
          intro acc c e1 hfc
          cases h1 : instToString arena fuel (indent + 1) c with
          | error e2 =>
            rw [h1] at hfc
            have : e2 = e1 := Except.error.inj hfc
            exact this ▸ ih (indent + 1) c e2 h1
          | ok s1 => rw [h1] at hfc; exact absurd hfc (by simp)

/-- Helper for C10: the renderer never succeeds on a span whose subtree
contains a never-stopped span, at any recursion budget and indent. -/
theorem instToString_ne_ok_of_contains (arena : List Inst) (i : Nat)
    (hcont : ContainsUnstopped arena i) :
    ∀ (fuel indent : Nat) (s : String),
      instToString arena fuel indent i ≠ .ok s := by
  induction hcont with
  | here j inst hget hstop =>
    intro fuel indent s h
    cases fuel with
    | zero => unfold instToString at h; exact Except.noConfusion h
    | succ fuel =>
      unfold instToString at h
      rw [hget] at h
      simp only at h
      have hd : get_duration inst = .error (.attributeError "stop_time") := by
        unfold get_duration; rw [hstop]
      rw [hd] at h
      exact Except.noConfusion h
  | viaChild j inst cs c hget hcs hmem hsub ih =>
    intro fuel indent s h
    cases fuel with
    | zero => unfold instToString at h; exact Except.noConfusion h
    | succ fuel =>
      unfold instToString at h
      rw [hget] at h
      simp only at h
      cases hd : get_duration inst with
      | error e0 => rw [hd] at h; exact Except.noConfusion h
      | ok dur =>
        rw [hd] at h
        simp only at h
        rw [hcs] at h
        refine foldlM_ne_ok_of_mem _ c ?_ cs _ hmem s h
        intro acc s1 hfc
        cases h1 : instToString arena fuel (indent + 1) c with
        | error e2 => rw [h1] at hfc; exact Except.noConfusion hfc
        | ok s2 => exact ih fuel (indent + 1) s2 h1

/-- Helper for C10: `to_string`'s root loop never succeeds when the
rendering of some root in the list never succeeds. -/
theorem rootsToString_ne_ok (arena : List Inst) (fuel r : Nat)
    (hr : ∀ (ind : Nat) (s : String), instToString arena fuel ind r ≠ .ok s) :
    ∀ (roots : List Nat) (acc : String), r ∈ roots →
      ∀ s : String, rootsToString arena fuel roots acc ≠ .ok s := by
  intro roots
  induction roots with
  | nil => intro acc hmem; exact absurd hmem (List.not_mem_nil r)
  | cons r0 rest ih =>
    intro acc hmem s h
    unfold rootsToString at h
    cases h0 : instToString arena fuel 0 r0 with
    | error e => rw [h0] at h; exact Except.noConfusion h
    | ok s0 =>
      rw [h0] at h
      rcases List.mem_cons.mp hmem with hEq | hmem2
      · exact hr 0 s0 (by rw [hEq]; exact h0)
      · exact ih (acc ++ s0) hmem2 s h

/-- Helper for C10: every failure of `to_string`'s root loop is either an
`AttributeError` or the recursion-limit error. -/
theorem rootsToString_error_kind (arena : List Inst) (fuel : Nat) :
    ∀ (roots : List Nat) (acc : String) (e : PyError),
      rootsToString arena fuel roots acc = .error e →
      (∃ a, e = PyError.attributeError a) ∨ e = PyError.recursionError := by
  intro roots
  induction roots with
  | nil =>
    intro acc e h
    unfold rootsToString at h
    exact absurd h (by simp)
  | cons r0 rest ih =>
    intro acc e h
    unfold rootsToString at h
    cases h0 : instToString arena fuel 0 r0 with
    | error e0 =>
      rw [h0] at h
      have : e0 = e := Except.error.inj h
      exact this ▸ instToString_error_kind arena fuel 0 r0 e0 h0
    | ok s0 =>
      rw [h0] at h
      exact ih (acc ++ s0) e h

/-- Claim C10: a span that was started but never stopped has no `stop_time`
(the attribute is never assigned, modelled by `stop_time = none`), so
`get_duration` raises `AttributeError` on every such span (first conjunct);
and rendering any timer whose forest contains such a span — as any root or
nested arbitrarily deep through the actual `child_instances` links — never
produces a string, at any recursion budget (second conjunct), and fails
with an `AttributeError` (third conjunct).  The hypothesis `hfuel` excludes
only the case where the recursion budget itself is exhausted first: `fuel`
is the embedding's stand-in for Python's recursion limit, and a render that
exceeds that limit dies with `RecursionError` in Python too, before any
duration is computed. -/
theorem c10_unstopped_span_attribute_error
    (arena : List Inst) (t : Timer) (fuel r : Nat)
    (hr : r ∈ t.instances) (hcont : ContainsUnstopped arena r)
    (hfuel : Timer.to_string t arena fuel ≠ .error PyError.recursionError) :
    (∀ inst : Inst, inst.stop_time = none →
      get_duration inst = .error (.attributeError "stop_time"))
  ∧ (∀ (fuel2 : Nat) (s : String), Timer.to_string t arena fuel2 ≠ .ok s)
  ∧ ∃ attr, Timer.to_string t arena fuel = .error (.attributeError attr) := by
  have hne := instToString_ne_ok_of_contains arena r hcont
  have hnok : ∀ (fuel2 : Nat) (s : String), Timer.to_string t arena fuel2 ≠ .ok s := by
    intro fuel2 s
    unfold Timer.to_string
    exact rootsToString_ne_ok arena fuel2 r (fun ind => hne fuel2 ind)
      t.instances "" hr s
  refine ⟨fun inst hstop => by unfold get_duration; rw [hstop], hnok, ?_⟩
  cases hres : Timer.to_string t arena fuel with
  | ok s => exact absurd hres (hnok fuel s)
  | error e =>
    have hkind := rootsToString_error_kind arena fuel t.instances "" e hres
    rcases hkind with ⟨a, rfl⟩ | rfl
    · exact ⟨a, rfl⟩
    · exact absurd hres hfuel

/-- Claim C10 witness: the timer `c10T` over `c10Arena` has the unstopped
span "u" nested as a child of its second root; its render fails with an
`AttributeError`. -/
theorem c10_unstopped_span_attribute_error_witness :
    ((1 : Nat) ∈ c10T.instances)
  ∧ ContainsUnstopped c10Arena 1
  ∧ Timer.to_string c10T c10Arena 3 ≠ Except.error PyError.recursionError
  ∧ ((∀ inst : Inst, inst.stop_time = none →
        get_duration inst = .error (.attributeError "stop_time"))
     ∧ (∀ (fuel2 : Nat) (s : String), Timer.to_string c10T c10Arena fuel2 ≠ .ok s)
     ∧ ∃ attr, Timer.to_string c10T c10Arena 3 = .error (.attributeError attr)) :=
  have hmem : (1 : Nat) ∈ c10T.instances := by
    simp [c10T]
  have hcont : ContainsUnstopped c10Arena 1 :=
    ContainsUnstopped.viaChild 1
      { name := "p", start_time := 0, stop_time := some 9, parent_instance := none,
        child_instances := PyListAttr.val [2] } [2] 2 rfl rfl (by simp)
      (ContainsUnstopped.here 2
        { name := "u", start_time := 1, stop_time := none, parent_instance := some 1,
          child_instances := PyListAttr.unset } rfl rfl)
  have hfuel : Timer.to_string c10T c10Arena 3 ≠ Except.error PyError.recursionError := by
    intro h
    rw [show Timer.to_string c10T c10Arena 3 =
          Except.error (PyError.attributeError "stop_time") from rfl] at h
    exact PyError.noConfusion (Except.error.inj h)
  ⟨hmem, hcont, hfuel,
   c10_unstopped_span_attribute_error c10Arena c10T 3 1 hmem hcont hfuel⟩
